import Mathlib

/-!
Verification of `commands/template_store_list.go` (faas-cli, `template store
list` command).

The Go file is embedded shallowly:

* `TemplateInfo` mirrors the Go struct with its seven string fields.
* `checkExistingPlatforms` mirrors the indexed `for ... range` loop over
  `availablePlatforms`, including the quirk that the error is assigned only
  when the index reaches the last position; a Go `error` is an
  `Option String` (`none` = nil error, `some msg` = error with message
  `msg`).
* The formatter writes cells to a `text/tabwriter.Writer` created with
  `NewWriter(&buff, 0, 0, 1, ' ', 0)`.  Each `Fprintf` with a
  `"%s\t...\t%s\n"` format contributes one line of tab-terminated cells, and
  each bare `Fprintln` contributes a line with a single empty cell, so the
  stream fed to the tabwriter is modelled as a `List (List String)` of lines
  of cells (cell text is free of the delimiter characters, per the
  tabwriter contract).  `tabAlign` implements the formatting
  algorithm for those parameters: maximal blocks of consecutive lines that
  still have a cell in the current column are aligned to the widest cell of
  the column plus one padding space; the last cell of each line is written
  unpadded; cell width counts runes.
* `encoding/json.Unmarshal` into `[]TemplateInfo` is modelled on parsed
  JSON values (`JSON`): a JSON array decodes element-wise, JSON `null` is a
  no-op (it leaves the Go value at its zero/current value and produces no
  error, as documented for `encoding/json`), any other value is a type
  error; inside an object, known keys (`template`, `platform`, ...) must
  hold strings (or `null`), unknown keys are ignored, and absent keys leave
  the zero value `""`.
* `getTemplateInfo` takes the ambient network as a `FetchWorld`
  (`http.NewRequest` failure and `client.Do` outcome as functions of the
  requested URL) and otherwise follows the Go control flow literally:
  request-creation error, transport error, the nil-body check (which names
  the package-level `templateStoreURL` variable, not the `repository`
  argument), the status-200 check (`http.StatusOK = 200`), body-read
  error, and the unmarshal step, each with its `fmt.Errorf` message.
* `runTemplateStoreList` resolves the store URL, fetches, wraps any fetch
  or decode error with `"error while getting templates info: "` and returns
  it (cobra turns a returned error into a nonzero exit with nothing else
  printed), or on success returns the formatted string (printed exactly
  once via `Fprintf`, exit code zero); hence an `Except String String`.
* `getTemplateStoreURL` is called by `runTemplateStoreList` but its body is
  not part of this excerpt; it is modelled from the spec (see its doc
  comment).
-/

/-- The Go struct `TemplateInfo` with its seven string fields. -/
structure TemplateInfo where
  TemplateName : String
  Platform     : String
  Language     : String
  Source       : String
  Description  : String
  Repository   : String
  Official     : String
deriving DecidableEq

/-- `const DefaultTemplatesStore = "https://raw.githubusercontent.com/openfaas/store/master/templates.json"`. -/
def DefaultTemplatesStore : String :=
  "https://raw.githubusercontent.com/openfaas/store/master/templates.json"

/-- `const allPlatforms = "allPlatforms"`, the sentinel meaning "all platforms". -/
def allPlatforms : String := "allPlatforms"

/-- `availablePlatforms = [...]string{"armhf", "x86_64", "arm64"}`. -/
def availablePlatforms : List String := ["armhf", "x86_64", "arm64"]

/-- The message built by `checkExistingPlatforms` via
`fmt.Errorf("\nCurrently supported platforms are: armhf, arm64 and x86_64. Unable to find: %s\n\n", platform)`. -/
def unsupportedPlatformMsg (platform : String) : String :=
  "\nCurrently supported platforms are: armhf, arm64 and x86_64. Unable to find: "
    ++ platform ++ "\n\n"

/-- The body of the `for lastPlatform, availablePlatform := range availablePlatforms`
loop of `checkExistingPlatforms`: on a match it breaks (nothing follows the
loop except `return err`, so breaking returns the current `err`); otherwise,
only when the index is the last one, it assigns the error. -/
def checkLoop (platform : String) (err : Option String) :
    List (Nat × String) → Option String
  | [] => err
  | (lastPlatform, availablePlatform) :: rest =>
    if availablePlatform == platform then
      err
    else if availablePlatforms.length - 1 == lastPlatform then
      checkLoop platform (some (unsupportedPlatformMsg platform)) rest
    else
      checkLoop platform err rest

/-- `func checkExistingPlatforms(platform string) error`. -/
def checkExistingPlatforms (platform : String) : Option String :=
  checkLoop platform none availablePlatforms.enum

/-- The cells written by one basic-mode row:
`fmt.Fprintf(lineWriter, "%s\t%s\t%s\n", name, source, description)`. -/
def basicRow (t : TemplateInfo) : List String :=
  [t.TemplateName, t.Source, t.Description]

/-- The cells written by one verbose-mode row:
`fmt.Fprintf(lineWriter, "%s\t%s\t%s\t%s\t%s\n", name, language, platform, source, description)`. -/
def verboseRow (t : TemplateInfo) : List String :=
  [t.TemplateName, t.Language, t.Platform, t.Source, t.Description]

/-- The filtered row loop of `formatBasicOutput`: one row per template whose
`Platform` equals the requested platform, in input order. -/
def basicRowsFiltered : List TemplateInfo → String → List (List String)
  | [], _ => []
  | t :: rest, platform =>
    if t.Platform == platform then basicRow t :: basicRowsFiltered rest platform
    else basicRowsFiltered rest platform

/-- The unfiltered row loop of `formatBasicOutput`: one row per template. -/
def basicRowsAll : List TemplateInfo → List (List String)
  | [] => []
  | t :: rest => basicRow t :: basicRowsAll rest

/-- The filtered row loop of `formatVerboseOutput`. -/
def verboseRowsFiltered : List TemplateInfo → String → List (List String)
  | [], _ => []
  | t :: rest, platform =>
    if t.Platform == platform then verboseRow t :: verboseRowsFiltered rest platform
    else verboseRowsFiltered rest platform

/-- The unfiltered row loop of `formatVerboseOutput`. -/
def verboseRowsAll : List TemplateInfo → List (List String)
  | [] => []
  | t :: rest => verboseRow t :: verboseRowsAll rest

/-- `func formatBasicOutput`: the lines of cells it writes to the tabwriter.
Both branches write the header `NAME\tSOURCE\tDESCRIPTION\n`; the first
filters rows by platform, the second writes every row. -/
def formatBasicOutput (templates : List TemplateInfo) (platform : String) :
    List (List String) :=
  if platform != allPlatforms then
    ["NAME", "SOURCE", "DESCRIPTION"] :: basicRowsFiltered templates platform
  else
    ["NAME", "SOURCE", "DESCRIPTION"] :: basicRowsAll templates

/-- `func formatVerboseOutput`: the lines of cells it writes to the tabwriter. -/
def formatVerboseOutput (templates : List TemplateInfo) (platform : String) :
    List (List String) :=
  if platform != allPlatforms then
    ["NAME", "LANGUAGE", "PLATFORM", "SOURCE", "DESCRIPTION"]
      :: verboseRowsFiltered templates platform
  else
    ["NAME", "LANGUAGE", "PLATFORM", "SOURCE", "DESCRIPTION"]
      :: verboseRowsAll templates

/-- The `if verbose { formatVerboseOutput } else { formatBasicOutput }`
dispatch inside `formatTemplatesOutput`. -/
def tableLines (templates : List TemplateInfo) (verbose : Bool)
    (platform : String) : List (List String) :=
  if verbose then formatVerboseOutput templates platform
  else formatBasicOutput templates platform

/-- tabwriter: a cell padded on the right with spaces to the column width
(`padchar = ' '`, left alignment, width counted in runes). -/
def padCell (cell : String) (width : Nat) : String :=
  cell ++ String.mk (List.replicate (width - cell.length) ' ')

/-- tabwriter `writeLines` for one line: cells that fall inside the known
column widths are padded to them; the remaining cells (in particular the
last cell of the line) are written verbatim. -/
def writeCells : List Nat → List String → String
  | _, [] => ""
  | [], cell :: cells => cell ++ writeCells [] cells
  | width :: widths, cell :: cells => padCell cell width ++ writeCells widths cells

/-- tabwriter column width for a block: the widest cell of the column plus
the padding of one space (`minwidth = 0`, `padding = 1`). -/
def colWidth (column : Nat) (block : List (List String)) : Nat :=
  block.foldl (fun width line => max width ((line.getD column "").length + 1)) 0

/-- tabwriter `format`: at column depth `widths.length`, a line without a
cell in the current column (i.e. with at most `widths.length + 1` cells) is
written with the known widths; a maximal run of lines that do have such a
cell forms a block, whose column width is computed and pushed before the
block is formatted one column deeper.  The `fuel` argument makes the
recursion structural; `tabAlign` supplies more fuel than the recursion
depth can reach. -/
def twFormat : Nat → List Nat → List (List String) → String
  | 0, _, _ => ""
  | _ + 1, _, [] => ""
  | fuel + 1, widths, line :: rest =>
    if line.length ≤ widths.length + 1 then
      writeCells widths line ++ "\n" ++ twFormat fuel widths rest
    else
      twFormat fuel
          (widths ++ [colWidth widths.length
            ((line :: rest).takeWhile fun l => decide (widths.length + 1 < l.length))])
          ((line :: rest).takeWhile fun l => decide (widths.length + 1 < l.length))
        ++ twFormat fuel widths
            ((line :: rest).dropWhile fun l => decide (widths.length + 1 < l.length))

/-- The result of `lineWriter.Flush(); buff.String()`: the tabwriter output
for the buffered lines. -/
def tabAlign (lines : List (List String)) : String :=
  twFormat (lines.length + (lines.map List.length).sum + 1) [] lines

/-- `func formatTemplatesOutput(templates []TemplateInfo, verbose bool, platform string) string`:
if the platform is not the sentinel and fails validation, the message of
the validation error is returned as the output string; otherwise the two bare
`Fprintln` calls and the chosen table body are flushed through the
tabwriter. -/
def formatTemplatesOutput (templates : List TemplateInfo) (verbose : Bool)
    (platform : String) : String :=
  match (if platform != allPlatforms then checkExistingPlatforms platform else none) with
  | some errMsg => errMsg
  | none => tabAlign ([""] :: (tableLines templates verbose platform ++ [[""]]))

/-- Modelled from the spec: `getTemplateStoreURL` is called by
`runTemplateStoreList` but defined outside this excerpt.  Per the spec
(§4.1), the resolver returns the override if non-empty, else the
environment value if non-empty, else the compiled-in default; it is a pure
function with no error conditions. -/
def getTemplateStoreURL (overrideValue envValue defaultValue : String) : String :=
  if overrideValue != "" then overrideValue
  else if envValue != "" then envValue
  else defaultValue

/-- A parsed JSON value (the `encoding/json` data model; numbers are not
relevant to any claim and are represented by their literal text). -/
inductive JSON where
  | null
  | bool (b : Bool)
  | num (lit : String)
  | str (s : String)
  | arr (elems : List JSON)
  | obj (fields : List (String × JSON))

/-- The zero value of the Go struct `TemplateInfo`: every field `""`. -/
def zeroTemplateInfo : TemplateInfo :=
  { TemplateName := "", Platform := "", Language := "", Source := ""
    Description := "", Repository := "", Official := "" }

/-- `encoding/json` unmarshalling of one value into a `string` field: a JSON
string is stored, JSON `null` is a documented no-op that keeps the current
value, anything else is an unmarshal type error. -/
def unmarshalStringField (v : JSON) (current : String) : Except String String :=
  match v with
  | .str s => .ok s
  | .null => .ok current
  | _ => .error "json: cannot unmarshal value into Go struct field of type string"

/-- Dispatch of one object key to the `TemplateInfo` field carrying that
struct tag; keys matching no tag are ignored. -/
def setTemplateField (acc : TemplateInfo) (name : String) (v : JSON) :
    Except String TemplateInfo :=
  if name == "template" then
    Except.map (fun s => { acc with TemplateName := s })
      (unmarshalStringField v acc.TemplateName)
  else if name == "platform" then
    Except.map (fun s => { acc with Platform := s })
      (unmarshalStringField v acc.Platform)
  else if name == "language" then
    Except.map (fun s => { acc with Language := s })
      (unmarshalStringField v acc.Language)
  else if name == "source" then
    Except.map (fun s => { acc with Source := s })
      (unmarshalStringField v acc.Source)
  else if name == "description" then
    Except.map (fun s => { acc with Description := s })
      (unmarshalStringField v acc.Description)
  else if name == "repo" then
    Except.map (fun s => { acc with Repository := s })
      (unmarshalStringField v acc.Repository)
  else if name == "official" then
    Except.map (fun s => { acc with Official := s })
      (unmarshalStringField v acc.Official)
  else
    .ok acc

/-- Unmarshalling of the fields of a JSON object into a `TemplateInfo`, starting
from the zero value; absent keys therefore stay `""`. -/
def unmarshalTemplateFields : TemplateInfo → List (String × JSON) →
    Except String TemplateInfo
  | acc, [] => .ok acc
  | acc, (name, v) :: rest =>
    match setTemplateField acc name v with
    | .error e => .error e
    | .ok next => unmarshalTemplateFields next rest

/-- Unmarshalling of one array element into a `TemplateInfo`: an object is
decoded field by field, `null` is a no-op leaving the zero value, anything
else is an unmarshal type error. -/
def unmarshalElem (j : JSON) : Except String TemplateInfo :=
  match j with
  | .obj fields => unmarshalTemplateFields zeroTemplateInfo fields
  | .null => .ok zeroTemplateInfo
  | _ => .error "json: cannot unmarshal value into Go value of type commands.TemplateInfo"

/-- Element-wise unmarshalling of the array body (the first element error is
the one `json.Unmarshal` reports). -/
def unmarshalElems : List JSON → Except String (List TemplateInfo)
  | [] => .ok []
  | j :: rest =>
    match unmarshalElem j with
    | .error e => .error e
    | .ok t =>
      match unmarshalElems rest with
      | .error e => .error e
      | .ok ts => .ok (t :: ts)

/-- `json.Unmarshal(body, &templatesInfo)` with `templatesInfo []TemplateInfo`:
an array decodes element-wise, `null` sets the slice to its zero value
(an empty sequence, no error), any other JSON value is an unmarshal type
error. -/
def unmarshalTemplateList : JSON → Except String (List TemplateInfo)
  | .arr elems => unmarshalElems elems
  | .null => .ok []
  | _ => .error "json: cannot unmarshal value into Go value of type []commands.TemplateInfo"

/-- `json.Marshal` of one `TemplateInfo` to the documented JSON shape with
the seven struct-tag field names. -/
def marshalTemplateInfo (t : TemplateInfo) : JSON :=
  .obj [("template", .str t.TemplateName), ("platform", .str t.Platform),
        ("language", .str t.Language), ("source", .str t.Source),
        ("description", .str t.Description), ("repo", .str t.Repository),
        ("official", .str t.Official)]

/-- `json.Marshal` of a `[]TemplateInfo`. -/
def marshalTemplateList (ts : List TemplateInfo) : JSON :=
  .arr (ts.map marshalTemplateInfo)

/-- The fully read response body, as far as the decoder can observe it:
either bytes that fail to parse as JSON (with the diagnostic of the parser) or
bytes whose parse is a JSON value. -/
inductive BodyBytes where
  | malformed (diag : String)
  | wellFormed (j : JSON)

/-- `json.Unmarshal` on the raw body bytes. -/
def jsonUnmarshalTemplates : BodyBytes → Except String (List TemplateInfo)
  | .malformed diag => .error diag
  | .wellFormed j => unmarshalTemplateList j

/-- An `*http.Response` as `getTemplateInfo` inspects it.  `Body = none`
models a nil `res.Body`; `some (.error e)` a body whose `ReadAll` fails;
`some (.ok b)` a fully readable body `b`. -/
structure HTTPResponse where
  StatusCode : Nat
  Body : Option (Except String BodyBytes)

/-- The ambient network, indexed by the requested URL: the outcome of
`http.NewRequest` (`some msg` = error) and of `client.Do` for that URL. -/
structure FetchWorld where
  newRequestErr : String → Option String
  doResult : String → Except String HTTPResponse

/-- `func getTemplateInfo(repository string) ([]TemplateInfo, error)`.
`templateStoreURL` is the package-level flag variable, which the nil-body
error message interpolates (the code requests `repository` but reports
`templateStoreURL`).  `http.StatusOK` is `200`. -/
def getTemplateInfo (w : FetchWorld) (repository templateStoreURL : String) :
    Except String (List TemplateInfo) :=
  match w.newRequestErr repository with
  | some reqErr =>
    .error ("error while trying to create request to take template info: " ++ reqErr)
  | none =>
    match w.doResult repository with
    | .error clientErr => .error ("error while requesting template list: " ++ clientErr)
    | .ok res =>
      match res.Body with
      | none => .error ("error empty response body from: " ++ templateStoreURL)
      | some bodyReader =>
        if res.StatusCode != 200 then
          .error ("unexpected status code wanted: 200 got: " ++ toString res.StatusCode)
        else
          match bodyReader with
          | .error bodyErr =>
            .error ("error while reading data from templates body: " ++ bodyErr)
          | .ok body =>
            match jsonUnmarshalTemplates body with
            | .error unmarshallErr =>
              .error ("error while unmarshalling into templates struct: " ++ unmarshallErr)
            | .ok templatesInfo => .ok templatesInfo

/-- `func runTemplateStoreList(cmd *cobra.Command, args []string) error`.
`templateStoreURL` is the flag variable (cobra default
`DefaultTemplatesStore`), `envTemplateRepoStore` the value of the
template-store-URL environment variable.  `.error msg` models returning a
non-nil error (cobra: nonzero exit, nothing printed by this function);
`.ok out` models printing `out` exactly once and returning nil (zero
exit). -/
def runTemplateStoreList (w : FetchWorld)
    (envTemplateRepoStore templateStoreURL : String)
    (verbose : Bool) (platform : String) : Except String String :=
  let storeURL := getTemplateStoreURL templateStoreURL envTemplateRepoStore
    DefaultTemplatesStore
  match getTemplateInfo w storeURL templateStoreURL with
  | .error templatesErr =>
    .error ("error while getting templates info: " ++ templatesErr)
  | .ok templatesInfo => .ok (formatTemplatesOutput templatesInfo verbose platform)

/-- The header cells of the chosen mode. -/
def tableHeader (verbose : Bool) : List String :=
  if verbose then ["NAME", "LANGUAGE", "PLATFORM", "SOURCE", "DESCRIPTION"]
  else ["NAME", "SOURCE", "DESCRIPTION"]

/-- The row cells contributed by one record in the chosen mode. -/
def rowCells (verbose : Bool) : TemplateInfo → List String :=
  if verbose then verboseRow else basicRow

/-- The records that survive the platform filter: all of them for the
sentinel, else those whose `Platform` equals the requested one, in input
order. -/
def survivors (templates : List TemplateInfo) (platform : String) :
    List TemplateInfo :=
  if platform != allPlatforms then
    templates.filter (fun t => t.Platform == platform)
  else templates

/-- The tabwriter output for a run of lines written with fixed column
widths: each line is its padded cells followed by a newline. -/
def concatLines (widths : List Nat) : List (List String) → String
  | [] => ""
  | line :: rest => writeCells widths line ++ "\n" ++ concatLines widths rest

/-- The column widths the tabwriter computes for the table body: one width
per non-terminal column (two in basic mode, four in verbose mode), each the
widest cell of that column plus one space. -/
def tableWidths (verbose : Bool) (content : List (List String)) : List Nat :=
  (List.range' 0 ((if verbose then 5 else 3) - 1)).map (fun j => colWidth j content)

/-- Sample record used to instantiate theorems with hypotheses. -/
def sampleTemplateA : TemplateInfo :=
  { TemplateName := "python3-flask", Platform := "x86_64", Language := "python3"
    Source := "openfaas/templates", Description := "Flask template"
    Repository := "", Official := "true" }

/-- Second sample record used to instantiate theorems with hypotheses. -/
def sampleTemplateB : TemplateInfo :=
  { TemplateName := "go-armhf", Platform := "arm64", Language := "go"
    Source := "repo2", Description := "Go template"
    Repository := "", Official := "false" }

/-- A response with status 404 and a readable body. -/
def responseNotFound : HTTPResponse :=
  { StatusCode := 404, Body := some (.ok (.wellFormed JSON.null)) }

/-- A network in which every request yields `responseNotFound`. -/
def worldNotFound : FetchWorld :=
  { newRequestErr := fun _ => none, doResult := fun _ => .ok responseNotFound }

/-- A response with status 200 and a nil body. -/
def responseNilBody : HTTPResponse :=
  { StatusCode := 200, Body := none }

/-- A network in which every request yields `responseNilBody`. -/
def worldNilBody : FetchWorld :=
  { newRequestErr := fun _ => none, doResult := fun _ => .ok responseNilBody }

/-- A network in which building the request fails. -/
def worldReqFail : FetchWorld :=
  { newRequestErr := fun _ => some "parse failure"
    doResult := fun _ => .error "unused" }

/-- A response with status 200 whose body is the JSON text `[]`. -/
def responseEmptyList : HTTPResponse :=
  { StatusCode := 200, Body := some (.ok (.wellFormed (JSON.arr []))) }

/-- A network in which every request yields `responseEmptyList`. -/
def worldEmptyList : FetchWorld :=
  { newRequestErr := fun _ => none, doResult := fun _ => .ok responseEmptyList }

/-- Membership in the supported set rules out the sentinel. -/
theorem mem_availablePlatforms_ne_sentinel {platform : String}
    (h : platform ∈ availablePlatforms) : (platform != allPlatforms) = true := by
  simp only [availablePlatforms, List.mem_cons, List.not_mem_nil, or_false] at h
  rcases h with rfl | rfl | rfl <;> decide

/-- A supported platform passes `checkExistingPlatforms`. -/
theorem checkExistingPlatforms_of_mem {platform : String}
    (h : platform ∈ availablePlatforms) : checkExistingPlatforms platform = none := by
  simp only [availablePlatforms, List.mem_cons, List.not_mem_nil, or_false] at h
  rcases h with rfl | rfl | rfl <;> decide

/-- An unsupported platform makes `checkExistingPlatforms` return the
unsupported-platform error. -/
theorem checkExistingPlatforms_of_not_mem {platform : String}
    (h : platform ∉ availablePlatforms) :
    checkExistingPlatforms platform = some (unsupportedPlatformMsg platform) := by
  simp only [availablePlatforms, List.mem_cons, List.not_mem_nil, or_false, not_or] at h
  obtain ⟨h1, h2, h3⟩ := h
  have b1 : ("armhf" == platform) = false := beq_eq_false_iff_ne.mpr (fun e => h1 e.symm)
  have b2 : ("x86_64" == platform) = false := beq_eq_false_iff_ne.mpr (fun e => h2 e.symm)
  have b3 : ("arm64" == platform) = false := beq_eq_false_iff_ne.mpr (fun e => h3 e.symm)
  show checkLoop platform none [(0, "armhf"), (1, "x86_64"), (2, "arm64")]
    = some (unsupportedPlatformMsg platform)
  simp [checkLoop, b1, b2, b3, availablePlatforms]

/-- Claim C10: `checkExistingPlatforms` returns no error exactly on the
members of `availablePlatforms` (in particular also on the last entry
`"arm64"`, despite the error being assigned only at the last index), and
every non-member — the empty string included — gets the
unsupported-platform error. -/
theorem checkExistingPlatforms_none_iff (platform : String) :
    (checkExistingPlatforms platform = none ↔ platform ∈ availablePlatforms)
  ∧ (platform ∉ availablePlatforms →
      checkExistingPlatforms platform = some (unsupportedPlatformMsg platform)) := by
  refine ⟨⟨fun h => ?_, checkExistingPlatforms_of_mem⟩, checkExistingPlatforms_of_not_mem⟩
  by_contra hmem
  rw [checkExistingPlatforms_of_not_mem hmem] at h
  exact Option.noConfusion h

/-- Witness for C10 at concrete platforms. -/
theorem checkExistingPlatforms_none_iff_witness :
    checkExistingPlatforms "arm64" = none
  ∧ checkExistingPlatforms "" = some (unsupportedPlatformMsg "") :=
  ⟨(checkExistingPlatforms_none_iff "arm64").1.mpr (by decide),
   (checkExistingPlatforms_none_iff "").2 (by decide)⟩

/-- The basic filtered loop is a filter followed by a map. -/
theorem basicRowsFiltered_eq (templates : List TemplateInfo) (platform : String) :
    basicRowsFiltered templates platform
      = (templates.filter fun t => t.Platform == platform).map basicRow := by
  induction templates with
  | nil => rfl
  | cons t rest ih =>
    by_cases h : (t.Platform == platform) = true <;>
      simp [basicRowsFiltered, List.filter_cons, h, ih]

/-- The basic unfiltered loop is a map. -/
theorem basicRowsAll_eq (templates : List TemplateInfo) :
    basicRowsAll templates = templates.map basicRow := by
  induction templates with
  | nil => rfl
  | cons t rest ih => simp [basicRowsAll, ih]

/-- The verbose filtered loop is a filter followed by a map. -/
theorem verboseRowsFiltered_eq (templates : List TemplateInfo) (platform : String) :
    verboseRowsFiltered templates platform
      = (templates.filter fun t => t.Platform == platform).map verboseRow := by
  induction templates with
  | nil => rfl
  | cons t rest ih =>
    by_cases h : (t.Platform == platform) = true <;>
      simp [verboseRowsFiltered, List.filter_cons, h, ih]

/-- The verbose unfiltered loop is a map. -/
theorem verboseRowsAll_eq (templates : List TemplateInfo) :
    verboseRowsAll templates = templates.map verboseRow := by
  induction templates with
  | nil => rfl
  | cons t rest ih => simp [verboseRowsAll, ih]

/-- The table body is always the header followed by one row per surviving
record. -/
theorem tableLines_eq (templates : List TemplateInfo) (verbose : Bool)
    (platform : String) :
    tableLines templates verbose platform
      = tableHeader verbose :: (survivors templates platform).map (rowCells verbose) := by
  cases verbose <;> by_cases h : (platform != allPlatforms) = true <;>
    simp [tableLines, formatBasicOutput, formatVerboseOutput, tableHeader, rowCells,
      survivors, h, basicRowsFiltered_eq, basicRowsAll_eq, verboseRowsFiltered_eq,
      verboseRowsAll_eq]

/-- Claim C1: for a platform in the supported set, the rendered rows are
exactly those of the records whose `Platform` equals it, in input order;
for the sentinel every record gets a row. -/
theorem tableLines_filterByPlatform (templates : List TemplateInfo)
    (verbose : Bool) (platform : String)
    (hmem : platform ∈ availablePlatforms) :
    tableLines templates verbose platform
        = tableHeader verbose
            :: (templates.filter fun t => t.Platform == platform).map (rowCells verbose)
  ∧ tableLines templates verbose allPlatforms
        = tableHeader verbose :: templates.map (rowCells verbose) := by
  constructor
  · rw [tableLines_eq]
    simp [survivors, mem_availablePlatforms_ne_sentinel hmem]
  · rw [tableLines_eq]
    simp [survivors]

/-- Witness for C1 at a concrete record list and platform `"arm64"`. -/
theorem tableLines_filterByPlatform_witness :
    tableLines [sampleTemplateA, sampleTemplateB] false "arm64"
        = [["NAME", "SOURCE", "DESCRIPTION"], ["go-armhf", "repo2", "Go template"]]
  ∧ tableLines [sampleTemplateA, sampleTemplateB] false allPlatforms
        = [["NAME", "SOURCE", "DESCRIPTION"],
           ["python3-flask", "openfaas/templates", "Flask template"],
           ["go-armhf", "repo2", "Go template"]] := by
  obtain ⟨h1, h2⟩ := tableLines_filterByPlatform [sampleTemplateA, sampleTemplateB]
    false "arm64" (by decide)
  exact ⟨h1.trans (by decide), h2.trans (by decide)⟩

/-- Claim C2 counterexample: at the unsupported platform `"mips"` the
formatter does not return the bare message — the `fmt.Errorf` format string
wraps it in a leading newline and two trailing newlines. -/
theorem formatTemplatesOutput_mips_counterexample :
    formatTemplatesOutput [] false "mips"
      ≠ "Currently supported platforms are: armhf, arm64 and x86_64. Unable to find: mips" := by
  decide

/-- Claim C2 (amended): for every record list,
`formatTemplatesOutput templates false "mips"` is exactly the
unsupported-platform message surrounded by one leading and two trailing
newline characters, returned as the formatted output string (never an
error), with no table rows. -/
theorem formatTemplatesOutput_mips_message (templates : List TemplateInfo) :
    formatTemplatesOutput templates false "mips"
      = "\nCurrently supported platforms are: armhf, arm64 and x86_64. Unable to find: mips\n\n" := by
  have h : (if "mips" != allPlatforms then checkExistingPlatforms "mips" else none)
      = some "\nCurrently supported platforms are: armhf, arm64 and x86_64. Unable to find: mips\n\n" := by
    decide
  unfold formatTemplatesOutput
  rw [h]

/-- Claim C4 (spec-modelled resolver): the override wins when non-empty,
else a non-empty environment value, else the default. -/
theorem getTemplateStoreURL_precedence (overrideValue envValue defaultValue : String) :
    (overrideValue ≠ "" →
      getTemplateStoreURL overrideValue envValue defaultValue = overrideValue)
  ∧ (overrideValue = "" → envValue ≠ "" →
      getTemplateStoreURL overrideValue envValue defaultValue = envValue)
  ∧ (overrideValue = "" → envValue = "" →
      getTemplateStoreURL overrideValue envValue defaultValue = defaultValue) := by
  refine ⟨fun h => ?_, fun h1 h2 => ?_, fun h1 h2 => ?_⟩ <;>
    simp_all [getTemplateStoreURL]

/-- Witness for C4: flag beats env beats default at concrete URLs. -/
theorem getTemplateStoreURL_precedence_witness :
    getTemplateStoreURL "https://override.example/templates.json"
        "https://env.example/templates.json" DefaultTemplatesStore
      = "https://override.example/templates.json"
  ∧ getTemplateStoreURL "" "https://env.example/templates.json" DefaultTemplatesStore
      = "https://env.example/templates.json"
  ∧ getTemplateStoreURL "" "" DefaultTemplatesStore = DefaultTemplatesStore :=
  ⟨(getTemplateStoreURL_precedence _ _ _).1 (by decide),
   (getTemplateStoreURL_precedence _ _ _).2.1 rfl (by decide),
   (getTemplateStoreURL_precedence _ _ _).2.2 rfl rfl⟩

/-- Claim C3: a fetch/decode error is wrapped with the stage prefix and
returned as the command error (nonzero exit, no output); on success the
formatted string — whatever the platform argument, the invalid-platform
message included — is the printed result of a succeeding command. -/
theorem runTemplateStoreList_wrap_and_success (w : FetchWorld)
    (envTemplateRepoStore templateStoreURL : String)
    (verbose : Bool) (platform : String) :
    (∀ e, getTemplateInfo w
        (getTemplateStoreURL templateStoreURL envTemplateRepoStore DefaultTemplatesStore)
        templateStoreURL = .error e →
      runTemplateStoreList w envTemplateRepoStore templateStoreURL verbose platform
        = .error ("error while getting templates info: " ++ e))
  ∧ (∀ templatesInfo, getTemplateInfo w
        (getTemplateStoreURL templateStoreURL envTemplateRepoStore DefaultTemplatesStore)
        templateStoreURL = .ok templatesInfo →
      runTemplateStoreList w envTemplateRepoStore templateStoreURL verbose platform
        = .ok (formatTemplatesOutput templatesInfo verbose platform)) := by
  constructor <;> intro x hx <;> simp [runTemplateStoreList, hx]

/-- Witness for C3: a failing fetch yields the wrapped error; a succeeding
fetch yields printed output even for the invalid platform `"mips"`. -/
theorem runTemplateStoreList_wrap_and_success_witness :
    runTemplateStoreList worldReqFail "" DefaultTemplatesStore false allPlatforms
      = .error ("error while getting templates info: "
          ++ "error while trying to create request to take template info: parse failure")
  ∧ runTemplateStoreList worldEmptyList "" DefaultTemplatesStore false "mips"
      = .ok (formatTemplatesOutput [] false "mips") := by
  obtain ⟨h1, -⟩ := runTemplateStoreList_wrap_and_success worldReqFail ""
    DefaultTemplatesStore false allPlatforms
  obtain ⟨-, h4⟩ := runTemplateStoreList_wrap_and_success worldEmptyList ""
    DefaultTemplatesStore false "mips"
  exact ⟨h1 _ rfl, h4 [] rfl⟩

/-- Claim C5: once a response with a (non-nil) body arrives, any status
other than 200 makes `getTemplateInfo` fail with the unexpected-status
error carrying the wanted code 200 and the received code, returning no
record list. -/
theorem getTemplateInfo_unexpectedStatus (w : FetchWorld)
    (repository templateStoreURL : String) (res : HTTPResponse)
    (hreq : w.newRequestErr repository = none)
    (hdo : w.doResult repository = .ok res)
    (hbody : res.Body.isSome = true)
    (hstatus : res.StatusCode ≠ 200) :
    getTemplateInfo w repository templateStoreURL
      = .error ("unexpected status code wanted: 200 got: " ++ toString res.StatusCode) := by
  obtain ⟨b, hb⟩ := Option.isSome_iff_exists.mp hbody
  have hbne : (res.StatusCode != 200) = true := bne_iff_ne.mpr hstatus
  simp [getTemplateInfo, hreq, hdo, hb, hbne]

/-- Witness for C5 at a concrete 404 response. -/
theorem getTemplateInfo_unexpectedStatus_witness :
    getTemplateInfo worldNotFound DefaultTemplatesStore DefaultTemplatesStore
      = .error ("unexpected status code wanted: 200 got: " ++ toString (404 : Nat)) :=
  getTemplateInfo_unexpectedStatus worldNotFound DefaultTemplatesStore
    DefaultTemplatesStore responseNotFound rfl rfl rfl (by decide)

/-- Claim C6: a nil response body makes `getTemplateInfo` fail with the
empty-body error naming the package-level `templateStoreURL` value — for
every `repository` argument, i.e. independently of the URL actually
requested. -/
theorem getTemplateInfo_emptyBody (w : FetchWorld)
    (repository templateStoreURL : String) (res : HTTPResponse)
    (hreq : w.newRequestErr repository = none)
    (hdo : w.doResult repository = .ok res)
    (hbody : res.Body = none) :
    getTemplateInfo w repository templateStoreURL
      = .error ("error empty response body from: " ++ templateStoreURL) := by
  simp [getTemplateInfo, hreq, hdo, hbody]

/-- Witness for C6: the reported URL is the configured one even though the
requested URL differs. -/
theorem getTemplateInfo_emptyBody_witness :
    getTemplateInfo worldNilBody "https://resolved.example/templates.json"
        "https://configured.example/templates.json"
      = .error ("error empty response body from: "
          ++ "https://configured.example/templates.json") :=
  getTemplateInfo_emptyBody worldNilBody "https://resolved.example/templates.json"
    "https://configured.example/templates.json" responseNilBody rfl rfl rfl

/-- An object none of whose keys matches a struct tag decodes to the
accumulator unchanged. -/
theorem unmarshalTemplateFields_unknown (acc : TemplateInfo)
    (fields : List (String × JSON))
    (h : ∀ p ∈ fields, p.1 ∉ (["template", "platform", "language", "source",
        "description", "repo", "official"] : List String)) :
    unmarshalTemplateFields acc fields = Except.ok acc := by
  induction fields generalizing acc with
  | nil => rfl
  | cons p rest ih =>
    obtain ⟨name, v⟩ := p
    have hn := h _ (List.mem_cons_self _ _)
    simp only [List.mem_cons, List.not_mem_nil, or_false, not_or] at hn
    obtain ⟨n1, n2, n3, n4, n5, n6, n7⟩ := hn
    have hset : setTemplateField acc name v = Except.ok acc := by
      simp [setTemplateField, beq_eq_false_iff_ne.mpr n1, beq_eq_false_iff_ne.mpr n2,
        beq_eq_false_iff_ne.mpr n3, beq_eq_false_iff_ne.mpr n4,
        beq_eq_false_iff_ne.mpr n5, beq_eq_false_iff_ne.mpr n6,
        beq_eq_false_iff_ne.mpr n7]
    simp only [unmarshalTemplateFields, hset]
    exact ih acc (fun q hq => h q (List.mem_cons_of_mem _ hq))

/-- Claim C7 counterexample: JSON `null` is not an array, yet decoding it
into `[]TemplateInfo` succeeds with the empty sequence (the documented
`encoding/json` no-op for `null`) instead of returning a DecodeError. -/
theorem unmarshalTemplateList_null_counterexample :
    unmarshalTemplateList JSON.null = Except.ok ([] : List TemplateInfo) := rfl

/-- Claim C7 (amended): `[]` decodes to the empty sequence without error;
`null` also decodes to the empty sequence without error; every JSON value
that is neither an array nor `null` yields a decode error; bytes that fail
to parse yield the parse diagnostic as the error; and an object whose keys
are all unknown to the schema (hence also an object with absent fields)
decodes to the record with every field defaulted to the empty string, with
no required-field validation. -/
theorem unmarshalTemplateList_spec :
    unmarshalTemplateList (JSON.arr []) = Except.ok []
  ∧ unmarshalTemplateList JSON.null = Except.ok []
  ∧ (∀ j : JSON, (∀ elems, j ≠ JSON.arr elems) → j ≠ JSON.null →
      unmarshalTemplateList j
        = Except.error "json: cannot unmarshal value into Go value of type []commands.TemplateInfo")
  ∧ (∀ diag, jsonUnmarshalTemplates (BodyBytes.malformed diag) = Except.error diag)
  ∧ (∀ fields : List (String × JSON),
      (∀ p ∈ fields, p.1 ∉ (["template", "platform", "language", "source",
          "description", "repo", "official"] : List String)) →
      unmarshalElem (JSON.obj fields) = Except.ok zeroTemplateInfo) := by
  refine ⟨rfl, rfl, ?_, fun _ => rfl, ?_⟩
  · intro j harr hnull
    cases j with
    | null => exact absurd rfl hnull
    | arr elems => exact absurd rfl (harr elems)
    | bool b => rfl
    | num lit => rfl
    | str s => rfl
    | obj fields => rfl
  · intro fields h
    exact unmarshalTemplateFields_unknown zeroTemplateInfo fields h

/-- Witness for C7 at a concrete non-array value and a concrete
unknown-field object. -/
theorem unmarshalTemplateList_spec_witness :
    unmarshalTemplateList (JSON.str "not an array")
      = Except.error "json: cannot unmarshal value into Go value of type []commands.TemplateInfo"
  ∧ unmarshalElem (JSON.obj [("bogus", JSON.str "v")]) = Except.ok zeroTemplateInfo := by
  obtain ⟨-, -, h3, -, h5⟩ := unmarshalTemplateList_spec
  refine ⟨h3 _ (fun elems he => JSON.noConfusion he) (fun hn => JSON.noConfusion hn), h5 _ ?_⟩
  intro p hp
  simp only [List.mem_cons, List.not_mem_nil, or_false] at hp
  subst hp
  decide

/-- Decoding an encoded record recovers it. -/
theorem unmarshalElem_marshal (t : TemplateInfo) :
    unmarshalElem (marshalTemplateInfo t) = Except.ok t := by
  cases t
  rfl

/-- Claim C9: encoding a record sequence to the documented JSON shape and
decoding it back reproduces the sequence, order and field values included. -/
theorem marshal_unmarshal_roundtrip (ts : List TemplateInfo) :
    unmarshalTemplateList (marshalTemplateList ts) = Except.ok ts := by
  induction ts with
  | nil => rfl
  | cons t rest ih =>
    have ih' : unmarshalElems (rest.map marshalTemplateInfo) = Except.ok rest := ih
    simp [marshalTemplateList, unmarshalTemplateList, unmarshalElems,
      unmarshalElem_marshal, ih']

/-- `twFormat` writes nothing on an empty line buffer. -/
theorem twFormat_nil (fuel : Nat) (widths : List Nat) :
    twFormat fuel widths [] = "" := by
  cases fuel <;> rfl

/-- `takeWhile` passes over a prefix on which the predicate holds. -/
theorem takeWhile_append_of_all {α : Type} (p : α → Bool) (A B : List α)
    (hA : ∀ a ∈ A, p a = true) :
    (A ++ B).takeWhile p = A ++ B.takeWhile p := by
  induction A with
  | nil => simp
  | cons a rest ih =>
    simp [List.takeWhile_cons, hA a (List.mem_cons_self _ _),
      ih (fun x hx => hA x (List.mem_cons_of_mem _ hx))]

/-- `dropWhile` discards a prefix on which the predicate holds. -/
theorem dropWhile_append_of_all {α : Type} (p : α → Bool) (A B : List α)
    (hA : ∀ a ∈ A, p a = true) :
    (A ++ B).dropWhile p = B.dropWhile p := by
  induction A with
  | nil => simp
  | cons a rest ih =>
    simp only [List.cons_append, List.dropWhile_cons, hA a (List.mem_cons_self _ _)]
    exact ih (fun x hx => hA x (List.mem_cons_of_mem _ hx))

/-- The fold computing a column width never drops below its accumulator. -/
theorem colWidth_foldl_init (block : List (List String)) (column : Nat) :
    ∀ w, w ≤ block.foldl (fun width line => max width ((line.getD column "").length + 1)) w := by
  induction block with
  | nil => intro w; simp
  | cons l rest ih => intro w; exact le_trans (le_max_left _ _) (ih _)

/-- Every cell of a block fits in the computed column width with at least
one space to spare. -/
theorem le_colWidth (block : List (List String)) (column : Nat) :
    ∀ l ∈ block, (l.getD column "").length + 1 ≤ colWidth column block := by
  suffices h : ∀ w, ∀ l ∈ block,
      (l.getD column "").length + 1
        ≤ block.foldl (fun width line => max width ((line.getD column "").length + 1)) w by
    exact h 0
  induction block with
  | nil => intro w l hl; cases hl
  | cons a rest ih =>
    intro w l hl
    simp only [List.foldl_cons]
    rcases List.mem_cons.mp hl with rfl | hl
    · exact le_trans (le_max_right _ _) (colWidth_foldl_init rest column _)
    · exact ih _ l hl

/-- A run of lines that all fit in the known columns is written line by
line with those widths. -/
theorem twFormat_flat (L : List (List String)) :
    ∀ (widths : List Nat) (fuel : Nat),
      (∀ l ∈ L, l.length ≤ widths.length + 1) → L.length ≤ fuel →
      twFormat fuel widths L = concatLines widths L := by
  induction L with
  | nil =>
    intro widths fuel _ _
    rw [twFormat_nil]
    rfl
  | cons line rest ih =>
    intro widths fuel hlen hfuel
    obtain ⟨f, rfl⟩ : ∃ f, fuel = f + 1 := ⟨fuel - 1, by simp at hfuel; omega⟩
    rw [twFormat, if_pos (hlen line (List.mem_cons_self _ _))]
    rw [ih widths f (fun l hl => hlen l (List.mem_cons_of_mem _ hl))
      (by simp at hfuel; omega)]
    rfl

/-- Formatting a non-empty block of uniform-width lines pushes one column
width per non-terminal column and then writes every line with them. -/
theorem twFormat_uniform (d : Nat) :
    ∀ (content : List (List String)) (widths : List Nat) (k fuel : Nat),
      content ≠ [] → (∀ l ∈ content, l.length = k) →
      widths.length + 1 + d = k → content.length + d ≤ fuel →
      twFormat fuel widths content
        = concatLines
            (widths ++ (List.range' widths.length d).map (fun j => colWidth j content))
            content := by
  induction d with
  | zero =>
    intro content widths k fuel hne hk hcol hfuel
    have hr : List.range' widths.length 0 = [] := rfl
    rw [hr, List.map_nil, List.append_nil]
    exact twFormat_flat content widths fuel
      (fun l hl => by rw [hk l hl]; omega) (by omega)
  | succ d ih =>
    intro content widths k fuel hne hk hcol hfuel
    obtain ⟨line, rest, rfl⟩ : ∃ a b, content = a :: b := by
      cases content with
      | nil => exact absurd rfl hne
      | cons a b => exact ⟨a, b, rfl⟩
    obtain ⟨f, rfl⟩ : ∃ f, fuel = f + 1 := ⟨fuel - 1, by simp at hfuel; omega⟩
    have hall : ∀ l ∈ line :: rest,
        (fun l => decide (widths.length + 1 < l.length)) l = true := by
      intro l hl
      simp only [decide_eq_true_eq]
      rw [hk l hl]
      omega
    rw [twFormat,
      if_neg (by rw [hk line (List.mem_cons_self _ _)]; omega),
      List.takeWhile_eq_self_iff.mpr hall, List.dropWhile_eq_nil_iff.mpr hall,
      twFormat_nil, String.append_empty]
    rw [ih (line :: rest) (widths ++ [colWidth widths.length (line :: rest)]) k f
      (List.cons_ne_nil _ _) hk (by simp; omega) (by simp at hfuel ⊢; omega)]
    congr 1
    rw [List.length_append, List.length_singleton, List.range'_succ, List.map_cons,
      List.append_assoc, List.singleton_append]

/-- The full tabwriter pass over what `formatTemplatesOutput` buffers: a
blank line, a non-empty block of uniform-length lines, and a final blank
line come out as a newline, the aligned block, and a newline. -/
theorem twFormat_table (content : List (List String)) (k fuel : Nat)
    (hne : content ≠ []) (hk : ∀ l ∈ content, l.length = k) (h2 : 2 ≤ k)
    (hfuel : content.length + k ≤ fuel) :
    twFormat fuel [] ([""] :: (content ++ [[""]]))
      = "\n" ++ concatLines ((List.range' 0 (k - 1)).map (fun j => colWidth j content))
          content ++ "\n" := by
  obtain ⟨line, rest, rfl⟩ : ∃ a b, content = a :: b := by
    cases content with
    | nil => exact absurd rfl hne
    | cons a b => exact ⟨a, b, rfl⟩
  obtain ⟨f, rfl⟩ : ∃ f, fuel = f + 2 := ⟨fuel - 2, by simp at hfuel; omega⟩
  rw [twFormat]
  rw [if_pos (by simp)]
  have hwc : writeCells [] [""] = "" := rfl
  rw [hwc, String.empty_append]
  rw [List.cons_append, twFormat]
  rw [if_neg (by simp only [List.length_nil]; rw [hk line (List.mem_cons_self _ _)]; omega)]
  simp only [List.length_nil, List.nil_append]
  have hall : ∀ l ∈ line :: rest,
      (fun l : List String => decide ((0 : Nat) + 1 < l.length)) l = true := by
    intro l hl
    simp only [decide_eq_true_eq]
    rw [hk l hl]
    omega
  simp only [← List.cons_append]
  rw [takeWhile_append_of_all _ _ _ hall, dropWhile_append_of_all _ _ _ hall]
  have ht : List.takeWhile (fun l : List String => decide ((0 : Nat) + 1 < l.length)) [[""]]
      = [] := rfl
  have hd : List.dropWhile (fun l : List String => decide ((0 : Nat) + 1 < l.length)) [[""]]
      = [[""]] := rfl
  rw [ht, List.append_nil, hd]
  obtain ⟨g, rfl⟩ : ∃ g, f = g + 1 := ⟨f - 1, by simp at hfuel; omega⟩
  have h2nd : twFormat (g + 1) [] [[""]] = "\n" := by
    rw [twFormat, if_pos (by simp)]
    rw [hwc, String.empty_append, twFormat_nil, String.append_empty]
  rw [h2nd]
  rw [twFormat_uniform (k - 2) (line :: rest) [colWidth 0 (line :: rest)] k (g + 1)
    (List.cons_ne_nil _ _) hk (by simp; omega) (by simp at hfuel ⊢; omega)]
  have hk1 : k - 1 = (k - 2) + 1 := by omega
  rw [hk1, List.range'_succ, List.map_cons]
  simp [List.singleton_append, List.length_singleton, Nat.zero_add, String.append_assoc]

/-- Indexing into the mapped range of column indices. -/
theorem getD_range'_map (F : Nat → Nat) : ∀ (n s j : Nat), j < n →
    ((List.range' s n).map F).getD j 0 = F (s + j) := by
  intro n
  induction n with
  | zero => intro s j h; omega
  | succ n ih =>
    intro s j h
    rw [List.range'_succ, List.map_cons]
    cases j with
    | zero => simp
    | succ j =>
      rw [List.getD_cons_succ, ih (s + 1) j (by omega)]
      congr 1
      omega

/-- Claim C8: for every record list and every platform that passes
validation, the output is exactly one leading blank line, then the aligned
table — the mode header (`NAME SOURCE DESCRIPTION`, or
`NAME LANGUAGE PLATFORM SOURCE DESCRIPTION` in verbose mode) followed by
one row of cells per surviving record — then one trailing blank line; every
non-terminal cell is padded to the shared column width, which exceeds each
cell, leaving at least one space of padding. -/
theorem formatTemplatesOutput_tableShape (templates : List TemplateInfo)
    (verbose : Bool) (platform : String)
    (hval : platform = allPlatforms ∨ platform ∈ availablePlatforms) :
    formatTemplatesOutput templates verbose platform
      = "\n" ++ concatLines (tableWidths verbose (tableLines templates verbose platform))
          (tableLines templates verbose platform) ++ "\n"
  ∧ tableLines templates verbose platform
      = tableHeader verbose :: (survivors templates platform).map (rowCells verbose)
  ∧ (∀ l ∈ tableLines templates verbose platform, ∀ j, j + 1 < l.length →
      (l.getD j "").length
        < (tableWidths verbose (tableLines templates verbose platform)).getD j 0) := by
  have hnone : (if platform != allPlatforms then checkExistingPlatforms platform else none)
      = none := by
    rcases hval with rfl | hmem
    · simp
    · cases hb : (platform != allPlatforms) with
      | false => simp [hb]
      | true => simp [hb, checkExistingPlatforms_of_mem hmem]
  have hshape := tableLines_eq templates verbose platform
  have hk : ∀ l ∈ tableLines templates verbose platform,
      l.length = (if verbose then 5 else 3) := by
    intro l hl
    rw [hshape] at hl
    rcases List.mem_cons.mp hl with rfl | hl
    · cases verbose <;> rfl
    · obtain ⟨t, -, rfl⟩ := List.mem_map.mp hl
      cases verbose <;> rfl
  have hne : tableLines templates verbose platform ≠ [] := by
    rw [hshape]; exact List.cons_ne_nil _ _
  have h2 : 2 ≤ (if verbose then 5 else 3) := by cases verbose <;> decide
  refine ⟨?_, hshape, ?_⟩
  · have hmain : formatTemplatesOutput templates verbose platform
        = tabAlign ([""] :: (tableLines templates verbose platform ++ [[""]])) := by
      unfold formatTemplatesOutput
      rw [hnone]
    rw [hmain]
    unfold tabAlign
    have hhead : (tableHeader verbose).length = (if verbose then 5 else 3) := by
      cases verbose <;> rfl
    have hmemh : (if verbose then 5 else 3)
        ≤ ((tableLines templates verbose platform).map List.length).sum := by
      have hmemc : tableHeader verbose ∈ tableLines templates verbose platform := by
        rw [hshape]; exact List.mem_cons_self _ _
      have hx : (tableHeader verbose).length
          ∈ (tableLines templates verbose platform).map List.length :=
        List.mem_map_of_mem _ hmemc
      rw [hhead] at hx
      exact List.single_le_sum (fun x _ => Nat.zero_le x) _ hx
    have hfuel : (tableLines templates verbose platform).length + (if verbose then 5 else 3)
        ≤ ([""] :: (tableLines templates verbose platform ++ [[""]])).length
          + ((([""] :: (tableLines templates verbose platform ++ [[""]])).map List.length).sum)
          + 1 := by
      simp
      omega
    rw [twFormat_table (tableLines templates verbose platform) (if verbose then 5 else 3)
      _ hne hk h2 hfuel]
    rfl
  · intro l hl j hj
    have hlk := hk l hl
    have hjk : j < (if verbose then 5 else 3) - 1 := by omega
    rw [tableWidths, getD_range'_map _ _ _ _ hjk, Nat.zero_add]
    exact le_colWidth (tableLines templates verbose platform) j l hl

/-- Witness for C8 at a concrete record list and the sentinel platform. -/
theorem formatTemplatesOutput_tableShape_witness :
    formatTemplatesOutput [sampleTemplateA] false allPlatforms
      = "\nNAME          SOURCE             DESCRIPTION\npython3-flask openfaas/templates Flask template\n\n" := by
  have h := formatTemplatesOutput_tableShape [sampleTemplateA] false allPlatforms (Or.inl rfl)
  exact h.1.trans (by decide)
